import Mathlib

/-!
Shallow embedding of the status reconciliation and announcement engine of
src/bot.py (minecraft-status-bot): the probers (query_java, query_bedrock),
the protocol resolver (get_status), and the periodic cycle (check_server)
with its debounce, rate-limit and announcement bookkeeping.

Network and library effects are modelled as an explicit World of outcomes
(mcstatus import success, rich query results, TCP connect result), and each
probing function additionally reports which network operations it performed
(Ops), so that short-circuit and no-probe properties are statable.
-/

namespace MCBot

/-- Payload of a successful rich status query (fields extracted by getattr in
the source; each may be absent). -/
structure RawStatus where
  players : Option Int
  maxPlayers : Option Int
  motd : Option String
  latency : Option Int
deriving DecidableEq, Repr

/-- External outcomes a single cycle can observe: whether the mcstatus
library imported (so JavaServer and BedrockServer are non-None), the outcome
of the rich Java query (none models an exception), the outcome of the TCP
connect fallback, and the outcome of the Bedrock query (error carries the
exception text). -/
structure World where
  mcstatusAvailable : Bool
  javaRich : Option RawStatus
  tcpOk : Bool
  bedrockRich : Except String RawStatus
deriving Repr

/-- The status dict produced by the probers and get_status; a none field
models an absent dict key (dict.get returning None). -/
structure StatusDict where
  available : Bool
  edition : Option String := none
  players_online : Option Int := none
  max_players : Option Int := none
  motd : Option String := none
  latency_ms : Option Int := none
  error : Option String := none
deriving DecidableEq, Repr

/-- Which network operations a call performed: the rich mcstatus Java query,
the TCP connect check, the Bedrock query. -/
structure Ops where
  javaProbe : Bool
  tcpProbe : Bool
  bedrockProbe : Bool
deriving DecidableEq, Repr

def noOps : Ops := ⟨false, false, false⟩

def orOps (a b : Ops) : Ops :=
  ⟨a.javaProbe || b.javaProbe, a.tcpProbe || b.tcpProbe, a.bedrockProbe || b.bedrockProbe⟩

/-- tcp_port_open: the asyncio TCP connect check; its outcome is an input of
the World. -/
def tcp_port_open (w : World) : Bool := w.tcpOk

/-- query_java: prefer the rich mcstatus query; on library absence or query
failure fall back to the TCP connect check, reporting available with all
gameplay fields unset (src/bot.py lines 90-107). -/
def query_java (w : World) : StatusDict × Ops :=
  if w.mcstatusAvailable then
    match w.javaRich with
    | some r =>
      ({ available := true, players_online := r.players, max_players := r.maxPlayers,
         motd := r.motd, latency_ms := r.latency },
       ⟨true, false, false⟩)
    | none =>
      ({ available := tcp_port_open w, players_online := none, max_players := none,
         motd := none, latency_ms := none },
       ⟨true, true, false⟩)
  else
    ({ available := tcp_port_open w, players_online := none, max_players := none,
       motd := none, latency_ms := none },
     ⟨false, true, false⟩)

/-- query_bedrock: requires the mcstatus library; when it is absent, returns
unavailable with a fixed diagnostic and performs no network operation; on a
query exception returns unavailable with the exception text
(src/bot.py lines 110-126). -/
def query_bedrock (w : World) : StatusDict × Ops :=
  if w.mcstatusAvailable then
    match w.bedrockRich with
    | Except.ok r =>
      ({ available := true, players_online := r.players, max_players := r.maxPlayers,
         motd := r.motd, latency_ms := r.latency },
       ⟨false, false, true⟩)
    | Except.error e =>
      ({ available := false, error := some e }, ⟨false, false, true⟩)
  else
    ({ available := false,
       error := some "mcstatus not installed (required for Bedrock UDP checks)" },
     noOps)

def withEdition (e : String) (d : StatusDict) : StatusDict := { d with edition := some e }

/-- In auto mode, after the Bedrock attempt did not succeed (or was skipped),
try Java; if unavailable, tag the result with the edition guessed from
mcstatus availability (src/bot.py lines 138-145). -/
def auto_java_fallback (w : World) (bops : Ops) : StatusDict × Ops :=
  let jr := query_java w
  let ops := orOps bops jr.2
  if jr.1.available then (withEdition "java" jr.1, ops)
  else
    let guessed := if w.mcstatusAvailable then "bedrock" else "java"
    (withEdition guessed jr.1, ops)

/-- Auto protocol resolution: Bedrock first when the capability is present,
returning immediately on success, otherwise Java with fallback tagging
(src/bot.py lines 132-145). -/
def get_status_auto (w : World) : StatusDict × Ops :=
  if w.mcstatusAvailable then
    let br := query_bedrock w
    if br.1.available then (withEdition "bedrock" br.1, br.2)
    else auto_java_fallback w br.2
  else auto_java_fallback w noOps

/-- get_status: dispatch on the configured protocol string; any other string
raises ValueError (src/bot.py lines 129-153). -/
def get_status (w : World) (protocol : String) : Except String StatusDict × Ops :=
  if protocol = "auto" then
    let r := get_status_auto w
    (Except.ok r.1, r.2)
  else if protocol = "java" then
    let r := query_java w
    (Except.ok (withEdition "java" r.1), r.2)
  else if protocol = "bedrock" then
    let r := query_bedrock w
    (Except.ok (withEdition "bedrock" r.1), r.2)
  else
    (Except.error ("Unsupported protocol: " ++ protocol), noOps)

/-- The last announcement's bookkeeping dict: the announced status string
plus the status details it was built from (src/bot.py line 254). -/
structure LastDetails where
  announced_status : String
  details : StatusDict
deriving DecidableEq, Repr

/-- The module-level mutable state of src/bot.py lines 68-72. Timestamps are
integer seconds. -/
structure BotState where
  last_status : Option String
  stable_count : Nat
  last_announce : Option Int
  last_details : Option LastDetails
deriving DecidableEq, Repr

def initialState : BotState := ⟨none, 0, none, none⟩

/-- Configuration pulled from the environment: STABLE_THRESHOLD and
RATE_LIMIT_SECONDS. -/
structure Config where
  stable_threshold : Nat
  rate_limit_seconds : Int
deriving Repr

/-- Labels for the cycle's branches: early return on channel resolution
failure, the not-yet-stable branch, the three announcement decisions, and a
failed send. -/
inductive CycleOutcome where
  | channelUnavailable
  | notStable
  | suppressedByRateLimit
  | suppressedAlreadyAnnounced
  | sent
  | sendFailed
deriving DecidableEq, Repr

/-- The status details a cycle proceeds with: the get_status result, or the
offline dict built from a caught exception (src/bot.py lines 204-209). -/
def cycle_details (w : World) (protocol : String) : StatusDict :=
  match (get_status w protocol).1 with
  | Except.ok d => d
  | Except.error e => { available := false, error := some e, edition := some "unknown" }

def classify (available : Bool) : String := if available then "online" else "offline"

/-- The classification string a cycle derives (src/bot.py lines 211-212). -/
def cycle_classification (w : World) (protocol : String) : String :=
  classify (cycle_details w protocol).available

/-- The debounce update of the consecutive counter
(src/bot.py lines 215-218). -/
def debounce_count (s : BotState) (cs : String) : Nat :=
  if some cs = s.last_status then s.stable_count + 1 else 1

/-- The rate-limit predicate (src/bot.py line 225). -/
def rate_limited (cfg : Config) (s : BotState) (now : Int) : Bool :=
  match s.last_announce with
  | some t0 => decide (now - t0 < cfg.rate_limit_seconds)
  | none => false

def announced_of (s : BotState) : Option String :=
  s.last_details.map (fun d => d.announced_status)

/-- The announcement decision taken once the status is stable: rate limit
first, then change detection against the last announced status, then the
send attempt whose success commits the bookkeeping
(src/bot.py lines 223-260). -/
def announce_step (cfg : Config) (s : BotState) (details : StatusDict) (cs : String)
    (now : Int) (sendOk : Bool) : BotState × CycleOutcome :=
  if rate_limited cfg s now then (s, CycleOutcome.suppressedByRateLimit)
  else if announced_of s ≠ some cs then
    if sendOk then
      ({ s with last_announce := some now, last_details := some ⟨cs, details⟩ },
       CycleOutcome.sent)
    else (s, CycleOutcome.sendFailed)
  else (s, CycleOutcome.suppressedAlreadyAnnounced)

/-- One full cycle of the check_server task (src/bot.py lines 190-264):
resolve the channel (early return when neither cache nor fetch yields it),
get the status (folding an exception to offline), debounce, and when stable
run the announcement step; last_status and stable_count are updated at the
end of every non-early-returning cycle. -/
def check_server (cfg : Config) (channelOk : Bool) (w : World) (protocol : String)
    (now : Int) (sendOk : Bool) (s : BotState) : BotState × CycleOutcome × Ops :=
  if channelOk then
    let ops := (get_status w protocol).2
    let details := cycle_details w protocol
    let cs := cycle_classification w protocol
    let n := debounce_count s cs
    let step :=
      if n ≥ cfg.stable_threshold then announce_step cfg s details cs now sendOk
      else (s, CycleOutcome.notStable)
    ({ step.1 with last_status := some cs, stable_count := n }, step.2, ops)
  else (s, CycleOutcome.channelUnavailable, noOps)

/-- The data-model invariant on a status dict: available implies no error
field, unavailable implies no gameplay fields. -/
def statusInv (d : StatusDict) : Bool :=
  (!d.available || d.error == none) &&
  (d.available || (d.players_online == none && d.max_players == none &&
                   d.motd == none && d.latency_ms == none))

/-! Concrete worlds and configuration used by the scenario theorems. -/

/-- A world where the target is reachable over plain TCP and mcstatus is
absent: a Java probe reports online via the fallback. -/
def wOn : World := ⟨false, none, true, Except.error "probe failed"⟩

/-- A world where the target is unreachable and mcstatus is absent. -/
def wOff : World := ⟨false, none, false, Except.error "probe failed"⟩

/-- The default configuration: STABLE_THRESHOLD 2, RATE_LIMIT_SECONDS 300. -/
def cfg2 : Config := ⟨2, 300⟩

def rawB : RawStatus := ⟨some 3, some 10, some "A server", some 42⟩

/-- mcstatus present, Bedrock query succeeds, Java rich query would fail and
TCP is closed. -/
def wBedrockUp : World := ⟨true, none, false, Except.ok rawB⟩

/-- mcstatus present, both the Bedrock query and the Java probe fail. -/
def wBothDown : World := ⟨true, none, false, Except.error "timed out"⟩

/-- mcstatus absent while the network would have answered everything. -/
def wNoCap : World := ⟨false, some rawB, true, Except.ok rawB⟩

/-- A plain online Java status dict, as stored in announcement bookkeeping. -/
def sdOnline : StatusDict := ⟨true, some "java", none, none, none, none, none⟩

/-! Branch lemmas for announce_step and check_server. -/

theorem announce_step_rate_limited (cfg : Config) (s : BotState) (d : StatusDict)
    (cs : String) (now : Int) (sendOk : Bool) (h : rate_limited cfg s now = true) :
    announce_step cfg s d cs now sendOk = (s, CycleOutcome.suppressedByRateLimit) := by
  unfold announce_step
  simp [h]

theorem announce_step_changed_sent (cfg : Config) (s : BotState) (d : StatusDict)
    (cs : String) (now : Int) (h : rate_limited cfg s now = false)
    (hd : announced_of s ≠ some cs) :
    announce_step cfg s d cs now true
      = ({ s with last_announce := some now, last_details := some ⟨cs, d⟩ },
         CycleOutcome.sent) := by
  unfold announce_step
  simp [h, hd]

theorem announce_step_changed_failed (cfg : Config) (s : BotState) (d : StatusDict)
    (cs : String) (now : Int) (h : rate_limited cfg s now = false)
    (hd : announced_of s ≠ some cs) :
    announce_step cfg s d cs now false = (s, CycleOutcome.sendFailed) := by
  unfold announce_step
  simp [h, hd]

theorem announce_step_same (cfg : Config) (s : BotState) (d : StatusDict)
    (cs : String) (now : Int) (sendOk : Bool) (h : rate_limited cfg s now = false)
    (hd : announced_of s = some cs) :
    announce_step cfg s d cs now sendOk = (s, CycleOutcome.suppressedAlreadyAnnounced) := by
  unfold announce_step
  simp [h, hd]

theorem announce_step_snd_ne_notStable (cfg : Config) (s : BotState) (d : StatusDict)
    (cs : String) (now : Int) (sendOk : Bool) :
    (announce_step cfg s d cs now sendOk).2 ≠ CycleOutcome.notStable := by
  unfold announce_step
  split
  · simp
  · split
    · split <;> simp
    · simp

theorem announce_step_sent_or_preserves (cfg : Config) (s : BotState) (d : StatusDict)
    (cs : String) (now : Int) (sendOk : Bool) :
    (announce_step cfg s d cs now sendOk).2 = CycleOutcome.sent
    ∨ (announce_step cfg s d cs now sendOk).1 = s := by
  unfold announce_step
  split
  · exact Or.inr rfl
  · split
    · split
      · exact Or.inl rfl
      · exact Or.inr rfl
    · exact Or.inr rfl

theorem check_server_true_eq (cfg : Config) (w : World) (protocol : String)
    (now : Int) (sendOk : Bool) (s : BotState) :
    check_server cfg true w protocol now sendOk s
      = (let cs := cycle_classification w protocol
         let n := debounce_count s cs
         let step := if n ≥ cfg.stable_threshold
           then announce_step cfg s (cycle_details w protocol) cs now sendOk
           else (s, CycleOutcome.notStable)
         ({ step.1 with last_status := some cs, stable_count := n }, step.2,
          (get_status w protocol).2)) := rfl

theorem check_server_stable (cfg : Config) (w : World) (protocol : String)
    (now : Int) (sendOk : Bool) (s : BotState)
    (h : debounce_count s (cycle_classification w protocol) ≥ cfg.stable_threshold) :
    check_server cfg true w protocol now sendOk s
      = ({ (announce_step cfg s (cycle_details w protocol)
              (cycle_classification w protocol) now sendOk).1 with
           last_status := some (cycle_classification w protocol),
           stable_count := debounce_count s (cycle_classification w protocol) },
         (announce_step cfg s (cycle_details w protocol)
            (cycle_classification w protocol) now sendOk).2,
         (get_status w protocol).2) := by
  rw [check_server_true_eq]
  simp only [if_pos h]

theorem check_server_unstable (cfg : Config) (w : World) (protocol : String)
    (now : Int) (sendOk : Bool) (s : BotState)
    (h : ¬ debounce_count s (cycle_classification w protocol) ≥ cfg.stable_threshold) :
    check_server cfg true w protocol now sendOk s
      = ({ s with
           last_status := some (cycle_classification w protocol),
           stable_count := debounce_count s (cycle_classification w protocol) },
         CycleOutcome.notStable, (get_status w protocol).2) := by
  rw [check_server_true_eq]
  simp only [if_neg h]

theorem check_server_sent_or_preserves (cfg : Config) (ch : Bool) (w : World)
    (protocol : String) (now : Int) (sendOk : Bool) (s : BotState) :
    (check_server cfg ch w protocol now sendOk s).2.1 = CycleOutcome.sent
    ∨ ((check_server cfg ch w protocol now sendOk s).1.last_announce = s.last_announce
       ∧ (check_server cfg ch w protocol now sendOk s).1.last_details = s.last_details) := by
  cases ch with
  | false => exact Or.inr ⟨rfl, rfl⟩
  | true =>
    by_cases hst : debounce_count s (cycle_classification w protocol) ≥ cfg.stable_threshold
    · rw [check_server_stable cfg w protocol now sendOk s hst]
      rcases announce_step_sent_or_preserves cfg s (cycle_details w protocol)
          (cycle_classification w protocol) now sendOk with h | h
      · exact Or.inl h
      · refine Or.inr ?_
        rw [h]
        exact ⟨rfl, rfl⟩
    · rw [check_server_unstable cfg w protocol now sendOk s hst]
      exact Or.inr ⟨rfl, rfl⟩

/-! The claims. -/

/-- C1: each cycle updates the debounce state by incrementing the
consecutive counter when the classification repeats and resetting it to 1
with the new classification otherwise; the cycle reaches the announcement
logic (the stable output) exactly when the counter meets STABLE_THRESHOLD.
With STABLE_THRESHOLD 2 the input sequence online, online, offline is
stable only at index 1 and not at index 2. -/
theorem debounce_transition_spec (cfg : Config) (w : World) (protocol : String)
    (now : Int) (sendOk : Bool) (s : BotState) :
    ((check_server cfg true w protocol now sendOk s).1.stable_count
        = (if some (cycle_classification w protocol) = s.last_status
           then s.stable_count + 1 else 1)
     ∧ (check_server cfg true w protocol now sendOk s).1.last_status
        = some (cycle_classification w protocol)
     ∧ ((check_server cfg true w protocol now sendOk s).2.1 ≠ CycleOutcome.notStable
        ↔ cfg.stable_threshold ≤ (check_server cfg true w protocol now sendOk s).1.stable_count))
    ∧ ((check_server cfg2 true wOn "java" 0 true initialState).2.1 = CycleOutcome.notStable
     ∧ (check_server cfg2 true wOn "java" 60 true
          (check_server cfg2 true wOn "java" 0 true initialState).1).2.1 = CycleOutcome.sent
     ∧ (check_server cfg2 true wOff "java" 120 true
          (check_server cfg2 true wOn "java" 60 true
            (check_server cfg2 true wOn "java" 0 true initialState).1).1).2.1
        = CycleOutcome.notStable) := by
  refine ⟨⟨rfl, rfl, ?_⟩, by decide⟩
  by_cases hst : debounce_count s (cycle_classification w protocol) ≥ cfg.stable_threshold
  · rw [check_server_stable cfg w protocol now sendOk s hst]
    exact iff_of_true
      (announce_step_snd_ne_notStable cfg s (cycle_details w protocol)
        (cycle_classification w protocol) now sendOk) hst
  · rw [check_server_unstable cfg w protocol now sendOk s hst]
    exact iff_of_false (not_not_intro rfl) hst

/-- C10: when the notification channel can neither be found in cache nor
fetched, the cycle returns before any probe is issued and leaves the whole
engine state unchanged. -/
theorem channel_unavailable_frame (cfg : Config) (w : World) (protocol : String)
    (now : Int) (sendOk : Bool) (s : BotState) :
    check_server cfg false w protocol now sendOk s
      = (s, CycleOutcome.channelUnavailable, noOps) := rfl

/-- C9 counterexample: with the mcstatus capability absent, query_bedrock
does report unavailable with no network operation, but its error string is
the mcstatus install diagnostic, not the literal "capability unavailable"
the claim states. -/
theorem bedrock_no_capability_error_string_cex :
    (query_bedrock wNoCap).1.available = false
    ∧ (query_bedrock wNoCap).2 = noOps
    ∧ (query_bedrock wNoCap).1.error
        = some "mcstatus not installed (required for Bedrock UDP checks)"
    ∧ ¬ (query_bedrock wNoCap).1.error = some "capability unavailable" := by
  decide

/-- C9 amended: when the mcstatus capability is absent, query_bedrock
deterministically returns available false with the error set to the
mcstatus install diagnostic, performing no network operation and no
fallback: the result is one fixed value whatever the network would have
answered. -/
theorem bedrock_no_capability_deterministic (w : World)
    (h : w.mcstatusAvailable = false) :
    query_bedrock w
      = ({ available := false,
           error := some "mcstatus not installed (required for Bedrock UDP checks)" },
         noOps) := by
  unfold query_bedrock
  rw [if_neg]
  simp [h]

/-- Witness for the C9 amended theorem at a concrete world. -/
theorem bedrock_no_capability_deterministic_witness :
    query_bedrock wNoCap
      = ({ available := false,
           error := some "mcstatus not installed (required for Bedrock UDP checks)" },
         noOps) :=
  bedrock_no_capability_deterministic wNoCap (by decide)

/-- C6: resolve in auto mode with the bedrock capability present and a
successful bedrock probe returns the bedrock result immediately; the java
probe (rich query or TCP fallback) is never invoked. -/
theorem auto_bedrock_short_circuit (w : World)
    (hcap : w.mcstatusAvailable = true)
    (hbav : (query_bedrock w).1.available = true) :
    get_status w "auto"
      = (Except.ok (withEdition "bedrock" (query_bedrock w).1), (query_bedrock w).2)
    ∧ (get_status w "auto").2.javaProbe = false
    ∧ (get_status w "auto").2.tcpProbe = false := by
  have hops : (query_bedrock w).2 = (⟨false, false, true⟩ : Ops) := by
    unfold query_bedrock
    rw [if_pos hcap]
    cases w.bedrockRich <;> rfl
  have hmain : get_status w "auto"
      = (Except.ok (withEdition "bedrock" (query_bedrock w).1), (query_bedrock w).2) := by
    simp [get_status, get_status_auto, hcap, hbav]
  refine ⟨hmain, ?_, ?_⟩
  · rw [hmain, hops]
  · rw [hmain, hops]

/-- Witness for C6 at a concrete world with a live bedrock target. -/
theorem auto_bedrock_short_circuit_witness :
    get_status wBedrockUp "auto"
      = (Except.ok (withEdition "bedrock" (query_bedrock wBedrockUp).1),
         (query_bedrock wBedrockUp).2)
    ∧ (get_status wBedrockUp "auto").2.javaProbe = false
    ∧ (get_status wBedrockUp "auto").2.tcpProbe = false :=
  auto_bedrock_short_circuit wBedrockUp (by decide) (by decide)

/-- C7: resolve in auto mode when both probes report unavailable returns
the java result relabelled with a deterministic edition: bedrock when the
capability is present, java otherwise, and never unknown. -/
theorem auto_both_fail_edition (w : World)
    (hb : (query_bedrock w).1.available = false)
    (hj : (query_java w).1.available = false) :
    (get_status w "auto").1
      = Except.ok (withEdition (if w.mcstatusAvailable then "bedrock" else "java")
          (query_java w).1)
    ∧ ∀ d, (get_status w "auto").1 = Except.ok d → d.edition ≠ some "unknown" := by
  have hmain : (get_status w "auto").1
      = Except.ok (withEdition (if w.mcstatusAvailable then "bedrock" else "java")
          (query_java w).1) := by
    cases hcap : w.mcstatusAvailable with
    | false => simp [get_status, get_status_auto, auto_java_fallback, hj, hcap]
    | true => simp [get_status, get_status_auto, auto_java_fallback, hb, hj, hcap]
  refine ⟨hmain, ?_⟩
  intro d hd
  rw [hmain] at hd
  injection hd with hd
  subst hd
  cases w.mcstatusAvailable <;> simp [withEdition]

/-- Witness for C7 at a concrete world where both probes fail with the
capability present. -/
theorem auto_both_fail_edition_witness :
    (get_status wBothDown "auto").1
      = Except.ok (withEdition (if wBothDown.mcstatusAvailable then "bedrock" else "java")
          (query_java wBothDown).1)
    ∧ ∀ d, (get_status wBothDown "auto").1 = Except.ok d → d.edition ≠ some "unknown" :=
  auto_both_fail_edition wBothDown (by decide) (by decide)

/-- A stable cycle whose classification repeats the previous one, differs
from the last announced status, and is not rate limited, sends. -/
theorem post_cycle_sent (cfg : Config) (w2 : World) (protocol : String)
    (now2 : Int) (s : BotState) (C : String)
    (hls : s.last_status = some C)
    (hsc : s.stable_count ≥ cfg.stable_threshold)
    (hcs2 : cycle_classification w2 protocol = C)
    (hnr : rate_limited cfg s now2 = false)
    (hdiff : announced_of s ≠ some C) :
    (check_server cfg true w2 protocol now2 true s).2.1 = CycleOutcome.sent := by
  have hd2 : debounce_count s (cycle_classification w2 protocol) ≥ cfg.stable_threshold := by
    unfold debounce_count
    rw [hcs2, hls, if_pos rfl]
    exact Nat.le_succ_of_le hsc
  have hdiff2 : announced_of s ≠ some (cycle_classification w2 protocol) := by
    rw [hcs2]
    exact hdiff
  rw [check_server_stable cfg w2 protocol now2 true s hd2,
      announce_step_changed_sent cfg s (cycle_details w2 protocol)
        (cycle_classification w2 protocol) now2 hnr hdiff2]

/-- C2: a stable classification that differs from the last announced one
but arrives within the rate-limit window is suppressed as rate limited
without updating the announcement bookkeeping, so the same transition
re-evaluated on a later stable cycle after the cooldown elapses is sent. -/
theorem rate_limit_defers_announcement (cfg : Config) (w w2 : World) (protocol : String)
    (now now2 t0 : Int) (sendOk1 : Bool) (s : BotState)
    (hstable : debounce_count s (cycle_classification w protocol) ≥ cfg.stable_threshold)
    (hdiff : announced_of s ≠ some (cycle_classification w protocol))
    (hann : s.last_announce = some t0)
    (hrl : now - t0 < cfg.rate_limit_seconds)
    (hcs2 : cycle_classification w2 protocol = cycle_classification w protocol)
    (hcool : cfg.rate_limit_seconds ≤ now2 - t0) :
    (check_server cfg true w protocol now sendOk1 s).2.1
        = CycleOutcome.suppressedByRateLimit
    ∧ (check_server cfg true w protocol now sendOk1 s).1.last_announce = s.last_announce
    ∧ (check_server cfg true w protocol now sendOk1 s).1.last_details = s.last_details
    ∧ (check_server cfg true w2 protocol now2 true
        (check_server cfg true w protocol now sendOk1 s).1).2.1 = CycleOutcome.sent := by
  have hrl1 : rate_limited cfg s now = true := by
    unfold rate_limited
    rw [hann]
    exact decide_eq_true hrl
  have hnr2 : rate_limited cfg s now2 = false := by
    unfold rate_limited
    rw [hann]
    exact decide_eq_false (not_lt.mpr hcool)
  have e1 : check_server cfg true w protocol now sendOk1 s
      = ({ s with
           last_status := some (cycle_classification w protocol),
           stable_count := debounce_count s (cycle_classification w protocol) },
         CycleOutcome.suppressedByRateLimit, (get_status w protocol).2) := by
    rw [check_server_stable cfg w protocol now sendOk1 s hstable,
        announce_step_rate_limited cfg s (cycle_details w protocol)
          (cycle_classification w protocol) now sendOk1 hrl1]
  rw [e1]
  exact ⟨rfl, rfl, rfl,
    post_cycle_sent cfg w2 protocol now2 _ (cycle_classification w protocol)
      rfl hstable hcs2 hnr2 hdiff⟩

/-- C3 counterexample: a stable classification equal to the last announced
one, arriving within the rate-limit window, is reported as
SuppressedByRateLimit, not SuppressedAlreadyAnnounced: the code evaluates
the rate-limit check before the already-announced check. -/
theorem already_announced_shadowed_by_rate_limit_cex :
    announced_of ⟨some "online", 1, some 0, some ⟨"online", sdOnline⟩⟩
        = some (cycle_classification wOn "java")
    ∧ debounce_count ⟨some "online", 1, some 0, some ⟨"online", sdOnline⟩⟩
        (cycle_classification wOn "java") ≥ cfg2.stable_threshold
    ∧ (check_server cfg2 true wOn "java" 100 true
        ⟨some "online", 1, some 0, some ⟨"online", sdOnline⟩⟩).2.1
        = CycleOutcome.suppressedByRateLimit
    ∧ (check_server cfg2 true wOn "java" 100 true
        ⟨some "online", 1, some 0, some ⟨"online", sdOnline⟩⟩).2.1
        ≠ CycleOutcome.suppressedAlreadyAnnounced := by
  decide

/-- C3 amended: a stable classification equal to the last announced one is
never sent and leaves the announcement bookkeeping unchanged, but the
rate-limit check is evaluated first: the decision is
SuppressedAlreadyAnnounced exactly when the rate limit does not apply, and
SuppressedByRateLimit when it does. -/
theorem already_announced_suppression (cfg : Config) (w : World) (protocol : String)
    (now : Int) (sendOk : Bool) (s : BotState)
    (hstable : debounce_count s (cycle_classification w protocol) ≥ cfg.stable_threshold)
    (heq : announced_of s = some (cycle_classification w protocol)) :
    (rate_limited cfg s now = false →
        (check_server cfg true w protocol now sendOk s).2.1
          = CycleOutcome.suppressedAlreadyAnnounced)
    ∧ (rate_limited cfg s now = true →
        (check_server cfg true w protocol now sendOk s).2.1
          = CycleOutcome.suppressedByRateLimit)
    ∧ (check_server cfg true w protocol now sendOk s).2.1 ≠ CycleOutcome.sent
    ∧ (check_server cfg true w protocol now sendOk s).1.last_announce = s.last_announce
    ∧ (check_server cfg true w protocol now sendOk s).1.last_details = s.last_details := by
  rw [check_server_stable cfg w protocol now sendOk s hstable]
  refine ⟨?_, ?_, ?_, ?_, ?_⟩
  · intro hnr
    rw [announce_step_same cfg s (cycle_details w protocol)
        (cycle_classification w protocol) now sendOk hnr heq]
  · intro hr
    rw [announce_step_rate_limited cfg s (cycle_details w protocol)
        (cycle_classification w protocol) now sendOk hr]
  · cases hr : rate_limited cfg s now
    · rw [announce_step_same cfg s (cycle_details w protocol)
          (cycle_classification w protocol) now sendOk hr heq]
      simp
    · rw [announce_step_rate_limited cfg s (cycle_details w protocol)
          (cycle_classification w protocol) now sendOk hr]
      simp
  · cases hr : rate_limited cfg s now
    · rw [announce_step_same cfg s (cycle_details w protocol)
          (cycle_classification w protocol) now sendOk hr heq]
    · rw [announce_step_rate_limited cfg s (cycle_details w protocol)
          (cycle_classification w protocol) now sendOk hr]
  · cases hr : rate_limited cfg s now
    · rw [announce_step_same cfg s (cycle_details w protocol)
          (cycle_classification w protocol) now sendOk hr heq]
    · rw [announce_step_rate_limited cfg s (cycle_details w protocol)
          (cycle_classification w protocol) now sendOk hr]

/-- Witness for the C3 amended theorem: outside the cooldown the unchanged
verdict is reported as already announced. -/
theorem already_announced_suppression_witness :
    (rate_limited cfg2 ⟨some "online", 1, some 0, some ⟨"online", sdOnline⟩⟩ 400 = false →
        (check_server cfg2 true wOn "java" 400 true
          ⟨some "online", 1, some 0, some ⟨"online", sdOnline⟩⟩).2.1
          = CycleOutcome.suppressedAlreadyAnnounced)
    ∧ (rate_limited cfg2 ⟨some "online", 1, some 0, some ⟨"online", sdOnline⟩⟩ 400 = true →
        (check_server cfg2 true wOn "java" 400 true
          ⟨some "online", 1, some 0, some ⟨"online", sdOnline⟩⟩).2.1
          = CycleOutcome.suppressedByRateLimit)
    ∧ (check_server cfg2 true wOn "java" 400 true
        ⟨some "online", 1, some 0, some ⟨"online", sdOnline⟩⟩).2.1 ≠ CycleOutcome.sent
    ∧ (check_server cfg2 true wOn "java" 400 true
        ⟨some "online", 1, some 0, some ⟨"online", sdOnline⟩⟩).1.last_announce
        = (⟨some "online", 1, some 0, some ⟨"online", sdOnline⟩⟩ : BotState).last_announce
    ∧ (check_server cfg2 true wOn "java" 400 true
        ⟨some "online", 1, some 0, some ⟨"online", sdOnline⟩⟩).1.last_details
        = (⟨some "online", 1, some 0, some ⟨"online", sdOnline⟩⟩ : BotState).last_details :=
  already_announced_suppression cfg2 wOn "java" 400 true
    ⟨some "online", 1, some 0, some ⟨"online", sdOnline⟩⟩ (by decide) (by decide)

/-- Witness for C2: a Sent online at t=0, then a stable offline transition
at t=100 is suppressed by the rate limit with the bookkeeping untouched,
and the same transition re-evaluated at t=301 is sent. -/
theorem rate_limit_defers_announcement_witness :
    (check_server cfg2 true wOff "java" 100 true
        ⟨some "offline", 1, some 0, some ⟨"online", sdOnline⟩⟩).2.1
        = CycleOutcome.suppressedByRateLimit
    ∧ (check_server cfg2 true wOff "java" 100 true
        ⟨some "offline", 1, some 0, some ⟨"online", sdOnline⟩⟩).1.last_announce
        = (⟨some "offline", 1, some 0, some ⟨"online", sdOnline⟩⟩ : BotState).last_announce
    ∧ (check_server cfg2 true wOff "java" 100 true
        ⟨some "offline", 1, some 0, some ⟨"online", sdOnline⟩⟩).1.last_details
        = (⟨some "offline", 1, some 0, some ⟨"online", sdOnline⟩⟩ : BotState).last_details
    ∧ (check_server cfg2 true wOff "java" 301 true
        (check_server cfg2 true wOff "java" 100 true
          ⟨some "offline", 1, some 0, some ⟨"online", sdOnline⟩⟩).1).2.1
        = CycleOutcome.sent :=
  rate_limit_defers_announcement cfg2 wOff wOff "java" 100 301 0 true
    ⟨some "offline", 1, some 0, some ⟨"online", sdOnline⟩⟩
    (by decide) (by decide) (by decide) (by decide) (by decide) (by decide)

/-- C4: when the announcement is due but the send fails, neither
last_announce nor the announced status is mutated, so the same transition
is sent on the next stable non-rate-limited cycle; more generally the
announcement bookkeeping advances only on a cycle whose outcome is sent. -/
theorem send_failure_noncommitting (cfg : Config) (w w2 : World) (protocol : String)
    (now now2 : Int) (s : BotState)
    (hstable : debounce_count s (cycle_classification w protocol) ≥ cfg.stable_threshold)
    (hdiff : announced_of s ≠ some (cycle_classification w protocol))
    (hnr : rate_limited cfg s now = false)
    (hcs2 : cycle_classification w2 protocol = cycle_classification w protocol)
    (hnr2 : rate_limited cfg s now2 = false) :
    (check_server cfg true w protocol now false s).2.1 = CycleOutcome.sendFailed
    ∧ (check_server cfg true w protocol now false s).1.last_announce = s.last_announce
    ∧ (check_server cfg true w protocol now false s).1.last_details = s.last_details
    ∧ (check_server cfg true w2 protocol now2 true
        (check_server cfg true w protocol now false s).1).2.1 = CycleOutcome.sent
    ∧ (∀ (cfg3 : Config) (ch : Bool) (w3 : World) (p3 : String) (n3 : Int) (ok3 : Bool)
          (s3 : BotState),
        (check_server cfg3 ch w3 p3 n3 ok3 s3).2.1 ≠ CycleOutcome.sent →
        (check_server cfg3 ch w3 p3 n3 ok3 s3).1.last_announce = s3.last_announce
        ∧ (check_server cfg3 ch w3 p3 n3 ok3 s3).1.last_details = s3.last_details) := by
  have e1 : check_server cfg true w protocol now false s
      = ({ s with
           last_status := some (cycle_classification w protocol),
           stable_count := debounce_count s (cycle_classification w protocol) },
         CycleOutcome.sendFailed, (get_status w protocol).2) := by
    rw [check_server_stable cfg w protocol now false s hstable,
        announce_step_changed_failed cfg s (cycle_details w protocol)
          (cycle_classification w protocol) now hnr hdiff]
  rw [e1]
  refine ⟨rfl, rfl, rfl, ?_, ?_⟩
  · exact post_cycle_sent cfg w2 protocol now2 _ (cycle_classification w protocol)
      rfl hstable hcs2 hnr2 hdiff
  · intro cfg3 ch w3 p3 n3 ok3 s3 hns
    rcases check_server_sent_or_preserves cfg3 ch w3 p3 n3 ok3 s3 with h | h
    · exact absurd h hns
    · exact h

/-- Witness for C4: a due offline announcement whose send fails at t=0
commits nothing and is sent on the next stable cycle at t=60. -/
theorem send_failure_noncommitting_witness :
    (check_server cfg2 true wOff "java" 0 false
        ⟨some "offline", 1, none, some ⟨"online", sdOnline⟩⟩).2.1
        = CycleOutcome.sendFailed
    ∧ (check_server cfg2 true wOff "java" 0 false
        ⟨some "offline", 1, none, some ⟨"online", sdOnline⟩⟩).1.last_announce
        = (⟨some "offline", 1, none, some ⟨"online", sdOnline⟩⟩ : BotState).last_announce
    ∧ (check_server cfg2 true wOff "java" 0 false
        ⟨some "offline", 1, none, some ⟨"online", sdOnline⟩⟩).1.last_details
        = (⟨some "offline", 1, none, some ⟨"online", sdOnline⟩⟩ : BotState).last_details
    ∧ (check_server cfg2 true wOff "java" 60 true
        (check_server cfg2 true wOff "java" 0 false
          ⟨some "offline", 1, none, some ⟨"online", sdOnline⟩⟩).1).2.1
        = CycleOutcome.sent
    ∧ (∀ (cfg3 : Config) (ch : Bool) (w3 : World) (p3 : String) (n3 : Int) (ok3 : Bool)
          (s3 : BotState),
        (check_server cfg3 ch w3 p3 n3 ok3 s3).2.1 ≠ CycleOutcome.sent →
        (check_server cfg3 ch w3 p3 n3 ok3 s3).1.last_announce = s3.last_announce
        ∧ (check_server cfg3 ch w3 p3 n3 ok3 s3).1.last_details = s3.last_details) :=
  send_failure_noncommitting cfg2 wOff wOff "java" 0 60
    ⟨some "offline", 1, none, some ⟨"online", sdOnline⟩⟩
    (by decide) (by decide) (by decide) (by decide) (by decide)

/-- C5 counterexample: with the unsupported protocol mode string "udp" a
running cycle does proceed: get_status raises, check_server catches the
error and converts it into an offline classification, advancing the
debounce state, instead of any startup-fatal behavior. -/
theorem unsupported_protocol_per_cycle_cex :
    (get_status wOn "udp").1 = Except.error "Unsupported protocol: udp"
    ∧ cycle_classification wOn "udp" = "offline"
    ∧ (check_server cfg2 true wOn "udp" 0 true initialState).1
        = ⟨some "offline", 1, none, none⟩
    ∧ (check_server cfg2 true wOn "udp" 0 true initialState).2.1
        ≠ CycleOutcome.channelUnavailable :=
  ⟨rfl, rfl, rfl, by decide⟩

/-- C5 amended: an unsupported protocol mode string is not detected at
startup; on every cycle get_status raises ValueError before any probe, and
check_server catches it, converting it into an available false
classification with edition unknown and the error text, after which the
cycle proceeds through the debouncer normally. -/
theorem unsupported_protocol_folds_offline (cfg : Config) (w : World) (protocol : String)
    (now : Int) (sendOk : Bool) (s : BotState)
    (h1 : protocol ≠ "auto") (h2 : protocol ≠ "java") (h3 : protocol ≠ "bedrock") :
    (get_status w protocol).1 = Except.error ("Unsupported protocol: " ++ protocol)
    ∧ (get_status w protocol).2 = noOps
    ∧ cycle_details w protocol
        = { available := false, edition := some "unknown",
            error := some ("Unsupported protocol: " ++ protocol) }
    ∧ cycle_classification w protocol = "offline"
    ∧ (check_server cfg true w protocol now sendOk s).1.last_status = some "offline"
    ∧ (check_server cfg true w protocol now sendOk s).1.stable_count
        = debounce_count s "offline" := by
  have hg : get_status w protocol
      = (Except.error ("Unsupported protocol: " ++ protocol), noOps) := by
    unfold get_status
    rw [if_neg h1, if_neg h2, if_neg h3]
  have hd : cycle_details w protocol
      = { available := false, edition := some "unknown",
          error := some ("Unsupported protocol: " ++ protocol) } := by
    unfold cycle_details
    rw [hg]
  have hc : cycle_classification w protocol = "offline" := by
    unfold cycle_classification
    rw [hd]
    rfl
  refine ⟨by rw [hg], by rw [hg], hd, hc, ?_, ?_⟩
  · have e : (check_server cfg true w protocol now sendOk s).1.last_status
        = some (cycle_classification w protocol) := rfl
    rw [e, hc]
  · have e : (check_server cfg true w protocol now sendOk s).1.stable_count
        = debounce_count s (cycle_classification w protocol) := rfl
    rw [e, hc]

/-- Witness for the C5 amended theorem at the concrete mode string "udp". -/
theorem unsupported_protocol_folds_offline_witness :
    (get_status wOn "udp").1 = Except.error ("Unsupported protocol: " ++ "udp")
    ∧ (get_status wOn "udp").2 = noOps
    ∧ cycle_details wOn "udp"
        = { available := false, edition := some "unknown",
            error := some ("Unsupported protocol: " ++ "udp") }
    ∧ cycle_classification wOn "udp" = "offline"
    ∧ (check_server cfg2 true wOn "udp" 0 true initialState).1.last_status = some "offline"
    ∧ (check_server cfg2 true wOn "udp" 0 true initialState).1.stable_count
        = debounce_count initialState "offline" :=
  unsupported_protocol_folds_offline cfg2 wOn "udp" 0 true initialState
    (by decide) (by decide) (by decide)

/-- C8: every status dict produced by the probers or returned by the
resolver satisfies the data-model invariant: available implies the error
field unset, unavailable implies the gameplay fields unset. -/
theorem status_dict_invariant (w : World) (protocol : String) :
    statusInv (query_java w).1 = true
    ∧ statusInv (query_bedrock w).1 = true
    ∧ ∀ d, (get_status w protocol).1 = Except.ok d → statusInv d = true := by
  obtain ⟨cap, jr, tcp, br⟩ := w
  have hj : statusInv (query_java ⟨cap, jr, tcp, br⟩).1 = true := by
    cases cap <;> cases jr <;> cases tcp <;>
      simp [query_java, tcp_port_open, statusInv]
  have hb : statusInv (query_bedrock ⟨cap, jr, tcp, br⟩).1 = true := by
    cases cap <;> cases br <;> simp [query_bedrock, statusInv]
  refine ⟨hj, hb, ?_⟩
  intro d hd
  unfold get_status at hd
  split at hd
  · simp only at hd
    injection hd with hd
    subst hd
    cases cap <;> cases jr <;> cases tcp <;> cases br <;>
      simp [get_status_auto, auto_java_fallback, query_java, query_bedrock,
        tcp_port_open, withEdition, statusInv]
  · split at hd
    · simp only at hd
      injection hd with hd
      subst hd
      exact hj
    · split at hd
      · simp only at hd
        injection hd with hd
        subst hd
        exact hb
      · simp at hd

end MCBot
